import Mathlib

/-!
Verification of the asgard request-handling pipeline
(`src/asgard/handler.cpp`): mode resolution, costing-option
construction, unreachable-distance computation and matrix result
classification, embedded shallowly in Lean.

Engine-side constants and enums (valhalla `thor::kMaxCost`, the
`odin::Costing` slot indices, the distance-threshold divisors and the
`sif::TravelMode` enum) are not part of this repository's sources; they
are modelled from the spec as explicit constants, and no theorem below
depends on their concrete numeric values beyond being distinct or, for
the sentinel, larger than the durations used in the spec's scenario.
-/

namespace Asgard

/-- Modelled from the spec: the solver's distinguished sentinel
`thor::kMaxCost` ("no result computed"), a numerically large `uint32`
constant supplied by the external engine (not in `src/`). -/
def kMaxCost : Nat := 99999999

/-- Modelled from the spec: engine-supplied pedestrian distance-threshold
divisor `thor::kTimeDistCostThresholdPedestrianDivisor` (not in `src/`). -/
def kTimeDistCostThresholdPedestrianDivisor : ℚ := 7

/-- Modelled from the spec: engine-supplied bicycle distance-threshold
divisor `thor::kTimeDistCostThresholdBicycleDivisor` (not in `src/`). -/
def kTimeDistCostThresholdBicycleDivisor : ℚ := 19

/-- Modelled from the spec: engine-supplied auto/default distance-threshold
divisor `thor::kTimeDistCostThresholdAutoDivisor` (not in `src/`). -/
def kTimeDistCostThresholdAutoDivisor : ℚ := 56

/-- The `odin::Costing` framework enum values the handler uses
(`auto_`, `bicycle`, `pedestrian`). -/
inductive Costing where
  | auto_
  | bicycle
  | pedestrian
deriving DecidableEq, Repr

/-- Modelled from the spec: the numeric slot of each costing family
inside the fixed-arity (twelve-slot) costing-options container; the
engine proto is not in `src/`.  The claims need only that the three
slots are distinct and below twelve. -/
def Costing.index : Costing → Nat
  | .auto_ => 0
  | .bicycle => 2
  | .pedestrian => 5

/-- The engine travel-mode enum `sif::TravelMode`
(`kDrive = 0, kPedestrian = 1, kBicycle = 2, kPublicTransit = 3`). -/
inductive TravelMode where
  | kDrive
  | kPedestrian
  | kBicycle
  | kPublicTransit
deriving DecidableEq, Repr

/-- The numeric value of a `sif::TravelMode`, used by `mode_index` to key
the fixed-size per-mode costing array. -/
def TravelMode.index : TravelMode → Nat
  | .kDrive => 0
  | .kPedestrian => 1
  | .kBicycle => 2
  | .kPublicTransit => 3

/-- One slot of the costing-options container.  Only the
walking-speed parameter is touched by this layer; `none` means the
parameter is unset, i.e. the engine default applies. -/
structure CostingOptions where
  walking_speed : Option ℚ
deriving DecidableEq, Repr

/-- `odin::DirectionsOptions` as used here: the repeated
`costing_options` field, a list of slots. -/
abbrev DirectionsOptions : Type := List CostingOptions

/-- `make_default_directions_options`: materialize twelve empty
costing-option slots (handler.cpp lines 26-32). -/
def make_default_directions_options : DirectionsOptions :=
  List.replicate 12 { walking_speed := Option.none }

/-- The process-wide default options template (handler.cpp line 33). -/
def default_directions_options : DirectionsOptions :=
  make_default_directions_options

/-- `options.mutable_costing_options(c)->set_walking_speed(v)`:
overwrite the walking-speed parameter of slot `c`. -/
def set_walking_speed (options : DirectionsOptions) (c : Costing) (v : ℚ) :
    DirectionsOptions :=
  options.set c.index { walking_speed := some v }

/-- The `mode_map` from mode strings to the engine travel-mode enum
(handler.cpp lines 35-39); `none` models `std::map::at` throwing
`std::out_of_range` on a missing key. -/
def mode_map : String → Option TravelMode
  | "walking" => some TravelMode.kPedestrian
  | "bike" => some TravelMode.kBicycle
  | "car" => some TravelMode.kDrive
  | _ => Option.none

/-- `mode_index` (handler.cpp lines 41-43): the cache-array index of a
mode, via `mode_map.at`. -/
def mode_index (mode : String) : Option Nat :=
  (mode_map mode).map TravelMode.index

/-- `make_costing_option` (handler.cpp lines 45-52): clone the default
options, multiply the speed by 3.6, and overwrite the walking-speed
parameter of the pedestrian and bicycle slots only.  The `mode`
argument is ignored, exactly as in the source. -/
def make_costing_option (mode : String) (speed : ℚ) : DirectionsOptions :=
  let options := default_directions_options
  let speed := speed * (36 / 10 : ℚ)
  let options := set_walking_speed options Costing.pedestrian speed
  let options := set_walking_speed options Costing.bicycle speed
  options

/-- `get_distance` (handler.cpp lines 54-63): the
unreachable-distance threshold, `duration` times a mode-specific
divisor, the auto divisor applying to every non-walking non-bike mode. -/
def get_distance (mode : String) (duration : ℚ) : ℚ :=
  if mode = "walking" then
    duration * kTimeDistCostThresholdPedestrianDivisor
  else if mode = "bike" then
    duration * kTimeDistCostThresholdBicycleDivisor
  else
    duration * kTimeDistCostThresholdAutoDivisor

/-- `to_costing` (handler.cpp lines 65-75); the error case models
`throw std::invalid_argument("Bad to_costing parameter")`. -/
def to_costing (mode : String) : Except String Costing :=
  if mode = "walking" then Except.ok Costing.pedestrian
  else if mode = "bike" then Except.ok Costing.bicycle
  else if mode = "car" then Except.ok Costing.auto_
  else Except.error "Bad to_costing parameter"

/-- The statuses of `pbnavitia::RoutingStatus` used by the handler. -/
inductive RoutingStatus where
  | reached
  | unreached
  | unknown
deriving DecidableEq, Repr

/-- One solver result (`thor::TimeDistance`): a time and a distance;
the handler reads only `.time`. -/
structure TimeDistance where
  time : Nat
  dist : Nat
deriving DecidableEq, Repr

/-- The status assigned to one solver time by the classifier chain of
handler.cpp lines 151-159: sentinel first, then the threshold. -/
def statusOf (max_duration : Nat) (time : Nat) : RoutingStatus :=
  if time = kMaxCost then RoutingStatus.unknown
  else if time > max_duration then RoutingStatus.unreached
  else RoutingStatus.reached

/-- One entry of the response row (`routing_response`): the verbatim
solver time as `duration`, plus the classified status
(handler.cpp lines 149-159). -/
structure RoutingResponseEntry where
  duration : Nat
  routing_status : RoutingStatus
deriving DecidableEq, Repr

/-- Build the response entry for one solver result. -/
def classifyEntry (max_duration : Nat) (elt : TimeDistance) :
    RoutingResponseEntry :=
  { duration := elt.time
  , routing_status := statusOf max_duration elt.time }

/-- The `nb_unknown` counter accumulated by the classification loop
(handler.cpp lines 143, 153). -/
def nb_unknown (max_duration : Nat) (res : List TimeDistance) : Nat :=
  (res.filter
    (fun elt => statusOf max_duration elt.time = RoutingStatus.unknown)).length

/-- The `nb_unreached` counter accumulated by the classification loop
(handler.cpp lines 144, 156). -/
def nb_unreached (max_duration : Nat) (res : List TimeDistance) : Nat :=
  (res.filter
    (fun elt => statusOf max_duration elt.time = RoutingStatus.unreached)).length

/-- The request-kind discriminator `pbnavitia::API`; kinds other than
the two the handler accepts are collected in `other`. -/
inductive API where
  | street_network_routing_matrix
  | direct_path
  | other (n : Nat)
deriving DecidableEq, Repr

/-- One place record of the matrix request; the handler reads only the
`place` identifier string. -/
structure Place where
  place : String
deriving DecidableEq, Repr

/-- The payload of `request.sn_routing_matrix()`. -/
structure MatrixRequest where
  mode : String
  speed : ℚ
  max_duration : Nat
  origins : List Place
  destinations : List Place
deriving DecidableEq, Repr

/-- The inbound `pbnavitia::Request`. -/
structure Request where
  requested_api : API
  sn_routing_matrix : MatrixRequest
deriving DecidableEq, Repr

/-- One row of the response matrix (`add_rows` /
`add_routing_response`). -/
structure RoutingMatrixRow where
  routing_response : List RoutingResponseEntry
deriving DecidableEq, Repr

/-- The outbound `pbnavitia::Response`; a default-constructed response
has no rows. -/
structure Response where
  rows : List RoutingMatrixRow
deriving DecidableEq, Repr

/-- The empty `pbnavitia::Response()` returned for an unsupported
request kind (handler.cpp line 97). -/
def emptyResponse : Response := { rows := [] }

/-- A projected network location (`baldr::PathLocation`), opaque to
this layer. -/
structure PathLocation where
  loc : Nat
deriving DecidableEq, Repr

/-- A costing-model instance as produced by `factory.Create(costing,
options)`: recorded by the costing enum and options it was built
from. -/
structure CostingModel where
  costing : Costing
  options : DirectionsOptions
deriving DecidableEq, Repr

/-- The per-mode costing cache `mode_costing`, keyed by travel-mode
index. -/
def ModeCosting : Type := Nat → Option CostingModel

/-- The C++ exceptions that can escape `Handler::handle`. -/
inductive HandlerError where
  | invalidArgument (msg : String)
  | outOfRange
  | assertionFailure
deriving DecidableEq, Repr

/-- Which external collaborators a call to `handle` invoked, and with
which arguments where a claim depends on them. -/
structure Effects where
  projectorArgs : Option (List String)
  solverCalled : Bool
  solverTravelMode : Option TravelMode
  solverDistance : Option ℚ
  graphQueried : Bool
  graphCleared : Bool
deriving DecidableEq, Repr

/-- The effects of a call that touched no collaborator. -/
def Effects.empty : Effects :=
  { projectorArgs := Option.none
  , solverCalled := false
  , solverTravelMode := Option.none
  , solverDistance := Option.none
  , graphQueried := false
  , graphCleared := false }

/-- The outcome of one `handle` call: the costing cache after the call,
the returned response (or the escaped exception), and the collaborator
effects. -/
structure HandleResult where
  mode_costing : ModeCosting
  response : Except HandlerError Response
  effects : Effects

/-- `path_locations.at(e)` for each identifier in turn
(handler.cpp lines 126-131): `std::map::at` throws `std::out_of_range`
on the first identifier absent from the projector's mapping; on success
the projected locations are accumulated in order. -/
def lookupAll (path_locations : String → Option PathLocation) :
    List String → Except HandlerError (List PathLocation)
  | [] => Except.ok []
  | e :: rest =>
    match path_locations e with
    | some l =>
      match lookupAll path_locations rest with
      | Except.ok ls => Except.ok (l :: ls)
      | Except.error err => Except.error err
    | Option.none => Except.error HandlerError.outOfRange

/-- The body of `Handler::handle` from line 116 on, reached once the
request kind is accepted and the mode has resolved: `idx` is
`mode_index(mode)`, `travel_mode` is `mode_map.at(mode)` and
`costing_enum` is `to_costing(mode)`.  It replaces the cache slot at
`idx`, joins origins and destinations for projection, looks each
identifier up in the returned mapping (out-of-range on a gap), runs the
solver, asserts the flat result length, classifies every result into
the single response row, and finally queries/clears the graph. -/
def handleResolved
    (projector : List String → String → Option PathLocation)
    (solver : List PathLocation → List PathLocation → ModeCosting →
      TravelMode → ℚ → List TimeDistance)
    (overCommitted : Bool)
    (mode_costing : ModeCosting)
    (request : Request)
    (idx : Nat) (travel_mode : TravelMode) (costing_enum : Costing) :
    HandleResult :=
  let mode := request.sn_routing_matrix.mode
  let sources := request.sn_routing_matrix.origins.map Place.place
  let targets := request.sn_routing_matrix.destinations.map Place.place
  let new_model : CostingModel :=
    { costing := costing_enum
    , options := make_costing_option mode request.sn_routing_matrix.speed }
  let mode_costing : ModeCosting := fun i =>
    if i = idx then some new_model else mode_costing i
  let range := sources ++ targets
  let path_locations := projector range
  match lookupAll path_locations sources,
      lookupAll path_locations targets with
  | Except.ok path_location_sources, Except.ok path_location_targets =>
    let distance :=
      get_distance mode (request.sn_routing_matrix.max_duration : ℚ)
    let res := solver path_location_sources path_location_targets
      mode_costing travel_mode distance
    if res.length = sources.length * targets.length then
      let row : RoutingMatrixRow :=
        { routing_response :=
            res.map (classifyEntry request.sn_routing_matrix.max_duration) }
      { mode_costing := mode_costing
      , response := Except.ok { rows := [row] }
      , effects :=
          { projectorArgs := some range
          , solverCalled := true
          , solverTravelMode := some travel_mode
          , solverDistance := some distance
          , graphQueried := true
          , graphCleared := overCommitted } }
    else
      { mode_costing := mode_costing
      , response := Except.error HandlerError.assertionFailure
      , effects :=
          { projectorArgs := some range
          , solverCalled := true
          , solverTravelMode := some travel_mode
          , solverDistance := some distance
          , graphQueried := false
          , graphCleared := false } }
  | Except.error e, _ =>
    { mode_costing := mode_costing
    , response := Except.error e
    , effects :=
        { projectorArgs := some range
        , solverCalled := false
        , solverTravelMode := Option.none
        , solverDistance := Option.none
        , graphQueried := false
        , graphCleared := false } }
  | _, Except.error e =>
    { mode_costing := mode_costing
    , response := Except.error e
    , effects :=
        { projectorArgs := some range
        , solverCalled := false
        , solverTravelMode := Option.none
        , solverDistance := Option.none
        , graphQueried := false
        , graphCleared := false } }

/-- `Handler::handle` (handler.cpp lines 93-170), with the external
collaborators passed in explicitly: `projector` maps the joined
identifier range to the identifier-to-location mapping, `solver` is
`matrix.SourceToTarget` (sources, targets, costing array, travel mode,
distance threshold, flat results), and `overCommitted` is what
`graph.OverCommitted()` would report after the request.  Exception
propagation is modelled by the `Except` in the result; mutations
performed before a throw are kept, exactly as in C++. -/
def handle
    (projector : List String → String → Option PathLocation)
    (solver : List PathLocation → List PathLocation → ModeCosting →
      TravelMode → ℚ → List TimeDistance)
    (overCommitted : Bool)
    (mode_costing : ModeCosting)
    (request : Request) : HandleResult :=
  if request.requested_api ≠ API.street_network_routing_matrix ∧
      request.requested_api ≠ API.direct_path then
    { mode_costing := mode_costing
    , response := Except.ok emptyResponse
    , effects := Effects.empty }
  else
    match to_costing request.sn_routing_matrix.mode with
    | Except.error msg =>
      { mode_costing := mode_costing
      , response := Except.error (HandlerError.invalidArgument msg)
      , effects := Effects.empty }
    | Except.ok costing_enum =>
      match mode_index request.sn_routing_matrix.mode,
          mode_map request.sn_routing_matrix.mode with
      | some idx, some travel_mode =>
        handleResolved projector solver overCommitted mode_costing request
          idx travel_mode costing_enum
      | _, _ =>
        { mode_costing := mode_costing
        , response := Except.error HandlerError.outOfRange
        , effects := Effects.empty }

/-! Concrete instantiations used by the witnesses and the spec's
scenario. -/

/-- The spec's scenario flat solver results
`[100, SENTINEL, 700, 50, 599, 601]` (distances are irrelevant to the
handler and set to 0). -/
def scenario_res : List TimeDistance :=
  [ { time := 100, dist := 0 }
  , { time := kMaxCost, dist := 0 }
  , { time := 700, dist := 0 }
  , { time := 50, dist := 0 }
  , { time := 599, dist := 0 }
  , { time := 601, dist := 0 } ]

/-- The spec's scenario request: 2 origins, 3 destinations,
mode "walking", speed 1.4, max_duration 600. -/
def scenario_request : Request :=
  { requested_api := API.street_network_routing_matrix
  , sn_routing_matrix :=
    { mode := "walking"
    , speed := 14 / 10
    , max_duration := 600
    , origins := [{ place := "A" }, { place := "B" }]
    , destinations := [{ place := "C" }, { place := "D" }, { place := "E" }] } }

/-- A projector whose returned mapping is total. -/
def scenario_projector : List String → String → Option PathLocation :=
  fun _ _ => some { loc := 0 }

/-- A solver returning the scenario's flat results whatever its
arguments. -/
def scenario_solver : List PathLocation → List PathLocation → ModeCosting →
    TravelMode → ℚ → List TimeDistance :=
  fun _ _ _ _ _ => scenario_res

/-- An initially empty costing cache. -/
def empty_costing : ModeCosting := fun _ => Option.none

/-! Helper lemmas about `lookupAll`. -/

/-- If `lookupAll` succeeds, the mapping had an entry for every
identifier in the list. -/
theorem lookupAll_ok_total (m : String → Option PathLocation)
    (ids : List String) (ls : List PathLocation)
    (h : lookupAll m ids = Except.ok ls) :
    ∀ id ∈ ids, (m id).isSome := by
  induction ids generalizing ls with
  | nil => intro id hid; cases hid
  | cons a as ih =>
    intro id hid
    unfold lookupAll at h
    cases hma : m a with
    | none => rw [hma] at h; cases h
    | some l =>
      rw [hma] at h
      cases hrec : lookupAll m as with
      | error e => rw [hrec] at h; cases h
      | ok ls2 =>
        rcases List.mem_cons.mp hid with rfl | hmem
        · rw [hma]; rfl
        · exact ih ls2 hrec id hmem

/-- If the mapping has an entry for every identifier, `lookupAll`
succeeds. -/
theorem lookupAll_total (m : String → Option PathLocation)
    (ids : List String) (h : ∀ id, (m id).isSome) :
    ∃ ls, lookupAll m ids = Except.ok ls := by
  induction ids with
  | nil => exact ⟨[], rfl⟩
  | cons a as ih =>
    obtain ⟨ls, hls⟩ := ih
    cases hma : m a with
    | none => have := h a; rw [hma] at this; cases this
    | some l =>
      refine ⟨l :: ls, ?_⟩
      unfold lookupAll
      rw [hma, hls]

/-- The only error `lookupAll` produces is the out-of-range failure of
`std::map::at`. -/
theorem lookupAll_error_eq (m : String → Option PathLocation)
    (ids : List String) (e : HandlerError)
    (h : lookupAll m ids = Except.error e) :
    e = HandlerError.outOfRange := by
  induction ids with
  | nil => cases h
  | cons a as ih =>
    unfold lookupAll at h
    cases hma : m a with
    | none => rw [hma] at h; cases h; rfl
    | some l =>
      rw [hma] at h
      cases hrec : lookupAll m as with
      | error e2 => rw [hrec] at h; cases h; exact ih hrec
      | ok ls => rw [hrec] at h; cases h

/-! The claims. -/

/-- Claim C1: the classifier chain assigns `unknown` to the sentinel
duration (before the threshold test, so for every max_duration,
including 0, a sentinel is never `unreached`), `unreached` to a
non-sentinel duration strictly above max_duration, and `reached` to a
non-sentinel duration at most max_duration. -/
theorem statusOf_classification (time max_duration : Nat) :
    (time = kMaxCost → statusOf max_duration time = RoutingStatus.unknown) ∧
    (time ≠ kMaxCost → max_duration < time →
      statusOf max_duration time = RoutingStatus.unreached) ∧
    (time ≠ kMaxCost → time ≤ max_duration →
      statusOf max_duration time = RoutingStatus.reached) ∧
    statusOf max_duration kMaxCost ≠ RoutingStatus.unreached := by
  refine ⟨fun h => ?_, fun h hgt => ?_, fun h hle => ?_, ?_⟩
  · simp [statusOf, h]
  · simp [statusOf, h, hgt]
  · simp [statusOf, h, Nat.not_lt.mpr hle]
  · simp [statusOf]

/-- Witness for C1 at concrete inputs, among them the sentinel with
max_duration 0. -/
theorem statusOf_classification_witness :
    statusOf 0 kMaxCost = RoutingStatus.unknown ∧
    statusOf 600 700 = RoutingStatus.unreached ∧
    statusOf 600 599 = RoutingStatus.reached :=
  ⟨(statusOf_classification kMaxCost 0).1 rfl,
   (statusOf_classification 700 600).2.1 (by decide) (by decide),
   (statusOf_classification 599 600).2.2.1 (by decide) (by decide)⟩

/-- Claim C2: for every supported mode and speed, the costing options
put `speed * 3.6` in the walking-speed parameter of the pedestrian and
bicycle slots, while the auto slot keeps the default template's unset
(engine-default) parameter. -/
theorem make_costing_option_speed (mode : String) (speed : ℚ)
    (h : mode = "walking" ∨ mode = "bike" ∨ mode = "car") :
    (make_costing_option mode speed).get? Costing.pedestrian.index =
      some { walking_speed := some (speed * (36 / 10)) } ∧
    (make_costing_option mode speed).get? Costing.bicycle.index =
      some { walking_speed := some (speed * (36 / 10)) } ∧
    (make_costing_option mode speed).get? Costing.auto_.index =
      default_directions_options.get? Costing.auto_.index ∧
    (make_costing_option mode speed).get? Costing.auto_.index =
      some { walking_speed := Option.none } :=
  ⟨rfl, rfl, rfl, rfl⟩

/-- Witness for C2 at mode "walking" and speed 1.4. -/
theorem make_costing_option_speed_witness :
    (make_costing_option "walking" (14 / 10)).get? Costing.pedestrian.index =
      some { walking_speed := some ((14 / 10) * (36 / 10)) } :=
  (make_costing_option_speed "walking" (14 / 10) (Or.inl rfl)).1

/-- Claim C6: a request whose kind is neither the matrix kind nor the
direct-path kind yields the empty response (no rows), no exception, an
unchanged costing cache and no collaborator effect. -/
theorem handle_wrong_kind
    (projector : List String → String → Option PathLocation)
    (solver : List PathLocation → List PathLocation → ModeCosting →
      TravelMode → ℚ → List TimeDistance)
    (oc : Bool) (mc : ModeCosting) (request : Request)
    (h1 : request.requested_api ≠ API.street_network_routing_matrix)
    (h2 : request.requested_api ≠ API.direct_path) :
    handle projector solver oc mc request =
      { mode_costing := mc
      , response := Except.ok emptyResponse
      , effects := Effects.empty } ∧
    emptyResponse.rows = [] := by
  refine ⟨?_, rfl⟩
  simp [handle, h1, h2]

/-- Witness for C6 at a concrete unsupported kind. -/
theorem handle_wrong_kind_witness :
    handle scenario_projector scenario_solver false empty_costing
      { scenario_request with requested_api := API.other 3 } =
      { mode_costing := empty_costing
      , response := Except.ok emptyResponse
      , effects := Effects.empty } :=
  (handle_wrong_kind scenario_projector scenario_solver false empty_costing
    { scenario_request with requested_api := API.other 3 }
    (by simp) (by simp)).1

/-- On an accepted request kind and a resolved mode, `handle` is the
post-resolution body `handleResolved` at the mode's cache index, travel
mode and costing enum. -/
theorem handle_eq_handleResolved
    (projector : List String → String → Option PathLocation)
    (solver : List PathLocation → List PathLocation → ModeCosting →
      TravelMode → ℚ → List TimeDistance)
    (oc : Bool) (mc : ModeCosting) (request : Request)
    (hkind : request.requested_api = API.street_network_routing_matrix ∨
      request.requested_api = API.direct_path)
    (idx : Nat) (tm : TravelMode) (c : Costing)
    (hc : to_costing request.sn_routing_matrix.mode = Except.ok c)
    (hi : mode_index request.sn_routing_matrix.mode = some idx)
    (htm : mode_map request.sn_routing_matrix.mode = some tm) :
    handle projector solver oc mc request =
      handleResolved projector solver oc mc request idx tm c := by
  have hcond : ¬ (request.requested_api ≠ API.street_network_routing_matrix ∧
      request.requested_api ≠ API.direct_path) := by
    rcases hkind with h | h <;> simp [h]
  simp [handle, hcond, hc, hi, htm]

/-- Whatever the projector and solver do, the post-resolution body
leaves the costing cache as the original cache overwritten at exactly
the resolved index with the model built from the request's mode and
speed. -/
theorem handleResolved_mode_costing
    (projector : List String → String → Option PathLocation)
    (solver : List PathLocation → List PathLocation → ModeCosting →
      TravelMode → ℚ → List TimeDistance)
    (oc : Bool) (mc : ModeCosting) (request : Request)
    (idx : Nat) (tm : TravelMode) (c : Costing) :
    (handleResolved projector solver oc mc request idx tm c).mode_costing =
      fun i => if i = idx then
        some { costing := c
             , options := make_costing_option request.sn_routing_matrix.mode
                 request.sn_routing_matrix.speed }
      else mc i := by
  simp only [handleResolved]
  split
  · split <;> rfl
  · rfl
  · rfl

/-- Claim C9: a validated request for a supported mode replaces the
costing-cache slot at the mode's index with a model freshly built from
the request's mode and speed, and leaves every other slot untouched. -/
theorem handle_cache_replacement
    (projector : List String → String → Option PathLocation)
    (solver : List PathLocation → List PathLocation → ModeCosting →
      TravelMode → ℚ → List TimeDistance)
    (oc : Bool) (mc : ModeCosting) (request : Request)
    (hkind : request.requested_api = API.street_network_routing_matrix ∨
      request.requested_api = API.direct_path)
    (idx : Nat) (tm : TravelMode) (c : Costing)
    (hc : to_costing request.sn_routing_matrix.mode = Except.ok c)
    (hi : mode_index request.sn_routing_matrix.mode = some idx)
    (htm : mode_map request.sn_routing_matrix.mode = some tm) :
    (handle projector solver oc mc request).mode_costing idx =
      some { costing := c
           , options := make_costing_option request.sn_routing_matrix.mode
               request.sn_routing_matrix.speed } ∧
    ∀ i, i ≠ idx → (handle projector solver oc mc request).mode_costing i = mc i := by
  rw [handle_eq_handleResolved projector solver oc mc request hkind idx tm c
    hc hi htm, handleResolved_mode_costing]
  constructor
  · simp
  · intro i hne
    simp [hne]

/-- Witness for C9: the scenario request for mode "walking" fills slot
1 (kPedestrian) with the pedestrian model at speed 1.4. -/
theorem handle_cache_replacement_witness :
    (handle scenario_projector scenario_solver false empty_costing
        scenario_request).mode_costing 1 =
      some { costing := Costing.pedestrian
           , options := make_costing_option "walking" (14 / 10) } ∧
    (handle scenario_projector scenario_solver false empty_costing
        scenario_request).mode_costing 0 = Option.none :=
  ⟨(handle_cache_replacement scenario_projector scenario_solver false
      empty_costing scenario_request (Or.inl rfl) 1 TravelMode.kPedestrian
      Costing.pedestrian rfl rfl rfl).1,
   (handle_cache_replacement scenario_projector scenario_solver false
      empty_costing scenario_request (Or.inl rfl) 1 TravelMode.kPedestrian
      Costing.pedestrian rfl rfl rfl).2 0 (by decide)⟩

/-- Claim C5: whatever flat result sequence the solver returns, if its
length is not origins-count times destinations-count the request fails
with the assertion error instead of producing a response. -/
theorem handle_assert_on_mismatch
    (res : List TimeDistance)
    (projector : List String → String → Option PathLocation)
    (oc : Bool) (mc : ModeCosting) (request : Request)
    (hkind : request.requested_api = API.street_network_routing_matrix ∨
      request.requested_api = API.direct_path)
    (idx : Nat) (tm : TravelMode) (c : Costing)
    (hc : to_costing request.sn_routing_matrix.mode = Except.ok c)
    (hi : mode_index request.sn_routing_matrix.mode = some idx)
    (htm : mode_map request.sn_routing_matrix.mode = some tm)
    (hproj : ∀ ids id, (projector ids id).isSome)
    (hlen : res.length ≠ request.sn_routing_matrix.origins.length *
      request.sn_routing_matrix.destinations.length) :
    (handle projector (fun _ _ _ _ _ => res) oc mc request).response =
      Except.error HandlerError.assertionFailure := by
  rw [handle_eq_handleResolved projector (fun _ _ _ _ _ => res) oc mc request
    hkind idx tm c hc hi htm]
  obtain ⟨ls, hS⟩ := lookupAll_total
    (projector (request.sn_routing_matrix.origins.map Place.place ++
      request.sn_routing_matrix.destinations.map Place.place))
    (request.sn_routing_matrix.origins.map Place.place)
    (fun id => hproj _ id)
  obtain ⟨lt, hT⟩ := lookupAll_total
    (projector (request.sn_routing_matrix.origins.map Place.place ++
      request.sn_routing_matrix.destinations.map Place.place))
    (request.sn_routing_matrix.destinations.map Place.place)
    (fun id => hproj _ id)
  simp [handleResolved, hS, hT, List.length_map, hlen]

/-- Witness for C5: one solver result for the 2-by-3 scenario request
trips the length assertion. -/
theorem handle_assert_on_mismatch_witness :
    (handle scenario_projector
        (fun _ _ _ _ _ => [ { time := 1, dist := 0 } ]) false empty_costing
        scenario_request).response =
      Except.error HandlerError.assertionFailure :=
  handle_assert_on_mismatch [ { time := 1, dist := 0 } ] scenario_projector
    false empty_costing scenario_request (Or.inl rfl) 1
    TravelMode.kPedestrian Costing.pedestrian rfl rfl rfl
    (fun _ _ => rfl) (by decide)

/-- Claim C4: the spec's scenario (2 origins, 3 destinations, mode
"walking", speed 1.4, max_duration 600, flat results
[100, SENTINEL, 700, 50, 599, 601]) classifies as
[reached, unknown, unreached, reached, reached, unreached] with
nb_unknown = 1 and nb_unreached = 2. -/
theorem scenario_classification :
    (handle scenario_projector scenario_solver false empty_costing
        scenario_request).response =
      Except.ok
        { rows := [ { routing_response :=
          [ { duration := 100, routing_status := RoutingStatus.reached }
          , { duration := kMaxCost, routing_status := RoutingStatus.unknown }
          , { duration := 700, routing_status := RoutingStatus.unreached }
          , { duration := 50, routing_status := RoutingStatus.reached }
          , { duration := 599, routing_status := RoutingStatus.reached }
          , { duration := 601, routing_status := RoutingStatus.unreached } ] } ] } ∧
    nb_unknown 600 scenario_res = 1 ∧
    nb_unreached 600 scenario_res = 2 := by
  refine ⟨?_, by decide, by decide⟩
  rfl

/-- Claim C3: an unsupported mode string on a well-kinded request makes
`handle` fail with the invalid-argument error of `to_costing`, with the
costing cache exactly as before and no collaborator touched. -/
theorem handle_unsupported_mode
    (projector : List String → String → Option PathLocation)
    (solver : List PathLocation → List PathLocation → ModeCosting →
      TravelMode → ℚ → List TimeDistance)
    (oc : Bool) (mc : ModeCosting) (request : Request)
    (hkind : request.requested_api = API.street_network_routing_matrix ∨
      request.requested_api = API.direct_path)
    (hm1 : request.sn_routing_matrix.mode ≠ "walking")
    (hm2 : request.sn_routing_matrix.mode ≠ "bike")
    (hm3 : request.sn_routing_matrix.mode ≠ "car") :
    handle projector solver oc mc request =
      { mode_costing := mc
      , response :=
          Except.error (HandlerError.invalidArgument "Bad to_costing parameter")
      , effects := Effects.empty } := by
  have hcond : ¬ (request.requested_api ≠ API.street_network_routing_matrix ∧
      request.requested_api ≠ API.direct_path) := by
    rcases hkind with h | h <;> simp [h]
  simp [handle, hcond, to_costing, hm1, hm2, hm3]

/-- Witness for C3 at mode "plane". -/
theorem handle_unsupported_mode_witness :
    handle scenario_projector scenario_solver false empty_costing
      { scenario_request with sn_routing_matrix :=
        { scenario_request.sn_routing_matrix with mode := "plane" } } =
      { mode_costing := empty_costing
      , response :=
          Except.error (HandlerError.invalidArgument "Bad to_costing parameter")
      , effects := Effects.empty } :=
  handle_unsupported_mode scenario_projector scenario_solver false
    empty_costing
    { scenario_request with sn_routing_matrix :=
      { scenario_request.sn_routing_matrix with mode := "plane" } }
    (Or.inl rfl) (by decide) (by decide) (by decide)

/-- A projector whose mapping lacks an entry for "B". -/
def gap_projector : List String → String → Option PathLocation :=
  fun _ id => if id = "B" then Option.none else some { loc := 0 }

/-- Claim C7: every origin and destination identifier, concatenated, is
passed to the projector, and a gap in the returned mapping for any of
them aborts the request with the out-of-range failure. -/
theorem handle_projection_contract
    (projector : List String → String → Option PathLocation)
    (solver : List PathLocation → List PathLocation → ModeCosting →
      TravelMode → ℚ → List TimeDistance)
    (oc : Bool) (mc : ModeCosting) (request : Request)
    (hkind : request.requested_api = API.street_network_routing_matrix ∨
      request.requested_api = API.direct_path)
    (idx : Nat) (tm : TravelMode) (c : Costing)
    (hc : to_costing request.sn_routing_matrix.mode = Except.ok c)
    (hi : mode_index request.sn_routing_matrix.mode = some idx)
    (htm : mode_map request.sn_routing_matrix.mode = some tm) :
    (handle projector solver oc mc request).effects.projectorArgs =
      some (request.sn_routing_matrix.origins.map Place.place ++
        request.sn_routing_matrix.destinations.map Place.place) ∧
    ((∃ id, id ∈ request.sn_routing_matrix.origins.map Place.place ++
          request.sn_routing_matrix.destinations.map Place.place ∧
        projector (request.sn_routing_matrix.origins.map Place.place ++
          request.sn_routing_matrix.destinations.map Place.place) id =
          Option.none) →
      (handle projector solver oc mc request).response =
        Except.error HandlerError.outOfRange) := by
  rw [handle_eq_handleResolved projector solver oc mc request hkind idx tm c
    hc hi htm]
  constructor
  · simp only [handleResolved]
    split
    · split <;> rfl
    · rfl
    · rfl
  · rintro ⟨id, hmem, hnone⟩
    simp only [handleResolved]
    split
    · next ls lt hS hT =>
        exfalso
        rcases List.mem_append.mp hmem with hs | ht
        · have hsome := lookupAll_ok_total _ _ _ hS id hs
          simp [hnone] at hsome
        · have hsome := lookupAll_ok_total _ _ _ hT id ht
          simp [hnone] at hsome
    · next e hS =>
        have he := lookupAll_error_eq _ _ _ hS
        subst he
        rfl
    · next x e hT hne =>
        have he := lookupAll_error_eq _ _ _ hT
        subst he
        rfl

/-- Witness for C7: the scenario request with a projector missing "B"
aborts with the out-of-range failure after receiving all five
identifiers. -/
theorem handle_projection_contract_witness :
    (handle gap_projector scenario_solver false empty_costing
        scenario_request).effects.projectorArgs =
      some ["A", "B", "C", "D", "E"] ∧
    (handle gap_projector scenario_solver false empty_costing
        scenario_request).response =
      Except.error HandlerError.outOfRange :=
  ⟨(handle_projection_contract gap_projector scenario_solver false
      empty_costing scenario_request (Or.inl rfl) 1 TravelMode.kPedestrian
      Costing.pedestrian rfl rfl rfl).1,
   (handle_projection_contract gap_projector scenario_solver false
      empty_costing scenario_request (Or.inl rfl) 1 TravelMode.kPedestrian
      Costing.pedestrian rfl rfl rfl).2 ⟨"B", by decide, rfl⟩⟩

/-- Claim C8: the distance threshold handed to the solver is
max_duration times the mode-specific divisor: the pedestrian divisor
for "walking", the bicycle divisor for "bike" and the auto divisor for
every other mode, "car" included. -/
theorem handle_distance_threshold
    (projector : List String → String → Option PathLocation)
    (solver : List PathLocation → List PathLocation → ModeCosting →
      TravelMode → ℚ → List TimeDistance)
    (oc : Bool) (mc : ModeCosting) (request : Request)
    (hkind : request.requested_api = API.street_network_routing_matrix ∨
      request.requested_api = API.direct_path)
    (idx : Nat) (tm : TravelMode) (c : Costing)
    (hc : to_costing request.sn_routing_matrix.mode = Except.ok c)
    (hi : mode_index request.sn_routing_matrix.mode = some idx)
    (htm : mode_map request.sn_routing_matrix.mode = some tm)
    (hproj : ∀ ids id, (projector ids id).isSome) :
    (handle projector solver oc mc request).effects.solverDistance =
      some (get_distance request.sn_routing_matrix.mode
        (request.sn_routing_matrix.max_duration : ℚ)) ∧
    (∀ d : ℚ, get_distance "walking" d =
      d * kTimeDistCostThresholdPedestrianDivisor) ∧
    (∀ d : ℚ, get_distance "bike" d =
      d * kTimeDistCostThresholdBicycleDivisor) ∧
    (∀ (m : String) (d : ℚ), m ≠ "walking" → m ≠ "bike" →
      get_distance m d = d * kTimeDistCostThresholdAutoDivisor) := by
  refine ⟨?_, fun d => rfl, fun d => rfl,
    fun m d h1 h2 => by simp [get_distance, h1, h2]⟩
  rw [handle_eq_handleResolved projector solver oc mc request hkind idx tm c
    hc hi htm]
  obtain ⟨ls, hS⟩ := lookupAll_total
    (projector (request.sn_routing_matrix.origins.map Place.place ++
      request.sn_routing_matrix.destinations.map Place.place))
    (request.sn_routing_matrix.origins.map Place.place)
    (fun id => hproj _ id)
  obtain ⟨lt, hT⟩ := lookupAll_total
    (projector (request.sn_routing_matrix.origins.map Place.place ++
      request.sn_routing_matrix.destinations.map Place.place))
    (request.sn_routing_matrix.destinations.map Place.place)
    (fun id => hproj _ id)
  simp only [handleResolved, hS, hT]
  split <;> rfl

/-- Witness for C8: the scenario request (mode "walking", max_duration
600) passes 600 times the pedestrian divisor, i.e. 4200, to the
solver. -/
theorem handle_distance_threshold_witness :
    (handle scenario_projector scenario_solver false empty_costing
        scenario_request).effects.solverDistance = some (4200 : ℚ) := by
  rw [(handle_distance_threshold scenario_projector scenario_solver false
    empty_costing scenario_request (Or.inl rfl) 1 TravelMode.kPedestrian
    Costing.pedestrian rfl rfl rfl (fun _ _ => rfl)).1]
  norm_num [get_distance, kTimeDistCostThresholdPedestrianDivisor,
    scenario_request]

/-- Claim C10: with a well-sized flat result sequence the response has
exactly one row, with one entry per solver result, and each entry's
duration is the solver time verbatim, the sentinel included. -/
theorem handle_response_row
    (res : List TimeDistance)
    (projector : List String → String → Option PathLocation)
    (oc : Bool) (mc : ModeCosting) (request : Request)
    (hkind : request.requested_api = API.street_network_routing_matrix ∨
      request.requested_api = API.direct_path)
    (idx : Nat) (tm : TravelMode) (c : Costing)
    (hc : to_costing request.sn_routing_matrix.mode = Except.ok c)
    (hi : mode_index request.sn_routing_matrix.mode = some idx)
    (htm : mode_map request.sn_routing_matrix.mode = some tm)
    (hproj : ∀ ids id, (projector ids id).isSome)
    (hlen : res.length = request.sn_routing_matrix.origins.length *
      request.sn_routing_matrix.destinations.length) :
    (handle projector (fun _ _ _ _ _ => res) oc mc request).response =
      Except.ok (Response.mk [RoutingMatrixRow.mk
        (res.map (classifyEntry request.sn_routing_matrix.max_duration))]) ∧
    (res.map (classifyEntry request.sn_routing_matrix.max_duration)).length =
      res.length ∧
    ∀ i : Nat,
      ((res.map (classifyEntry
          request.sn_routing_matrix.max_duration)).get? i).map
          RoutingResponseEntry.duration =
        (res.get? i).map TimeDistance.time := by
  refine ⟨?_, by simp, fun i => ?_⟩
  · rw [handle_eq_handleResolved projector (fun _ _ _ _ _ => res) oc mc
      request hkind idx tm c hc hi htm]
    obtain ⟨ls, hS⟩ := lookupAll_total
      (projector (request.sn_routing_matrix.origins.map Place.place ++
        request.sn_routing_matrix.destinations.map Place.place))
      (request.sn_routing_matrix.origins.map Place.place)
      (fun id => hproj _ id)
    obtain ⟨lt, hT⟩ := lookupAll_total
      (projector (request.sn_routing_matrix.origins.map Place.place ++
        request.sn_routing_matrix.destinations.map Place.place))
      (request.sn_routing_matrix.destinations.map Place.place)
      (fun id => hproj _ id)
    simp [handleResolved, hS, hT, List.length_map, hlen]
  · rw [List.get?_map]
    cases res.get? i with
    | none => rfl
    | some e => rfl

/-- Witness for C10 at the scenario: the response row maps the six
results verbatim, and the second entry's duration is the sentinel
itself. -/
theorem handle_response_row_witness :
    (handle scenario_projector (fun _ _ _ _ _ => scenario_res) false
        empty_costing scenario_request).response =
      Except.ok (Response.mk [RoutingMatrixRow.mk
        (scenario_res.map (classifyEntry 600))]) ∧
    ((scenario_res.map (classifyEntry 600)).get? 1).map
        RoutingResponseEntry.duration = some kMaxCost := by
  constructor
  · exact (handle_response_row scenario_res scenario_projector false
      empty_costing scenario_request (Or.inl rfl) 1 TravelMode.kPedestrian
      Costing.pedestrian rfl rfl rfl (fun _ _ => rfl) (by decide)).1
  · exact ((handle_response_row scenario_res scenario_projector false
      empty_costing scenario_request (Or.inl rfl) 1 TravelMode.kPedestrian
      Costing.pedestrian rfl rfl rfl (fun _ _ => rfl) (by decide)).2.2 1).trans
      rfl

end Asgard
